import Mathlib

/-!
Shallow embedding of the VF repository (MAC-address locator for network switches).

The repository has two engine revisions:
* `VFEngine.py` (namespace `VF` below): sequential engine; for each target MAC it
  loops over all switches, opening a fresh connection per (MAC, switch) pair,
  parses the full `show mac address-table` output with a regex, and breaks the
  switch loop on the first static-access match.
* `AsyncVFEngine.py` (namespace `AsyncVF` below): concurrent engine; one task per
  switch, one connection per switch reused over all MACs, device-side filtered
  commands, results gathered with `asyncio.gather`.

Remote I/O is embedded by passing the device's textual responses as data: a
`Device` holds, for each command the engines issue, the text the switch would
return.  Python strings are embedded as `List Char`; printed messages become an
explicit event trace (`Ev`); raised Python exceptions become an `Option PyErr`
carried next to the events produced before the raise.
-/

/-- Python strings, embedded as character lists. -/
abbrev Str := List Char

/-- One step of Python `str.split(sep)` for a single-character separator,
with an accumulator for the current field (kept in reverse). -/
def splitOnCharGo (c : Char) : Str → Str → List Str
  | [], acc => [acc.reverse]
  | x :: xs, acc =>
    if x = c then acc.reverse :: splitOnCharGo c xs []
    else splitOnCharGo c xs (x :: acc)

/-- Python `str.split(sep)` for a single-character separator: splits at every
occurrence, keeping empty fields (`"a::b".split(":") == ["a","","b"]`). -/
def splitOnChar (c : Char) (s : Str) : List Str :=
  splitOnCharGo c s []

/-- Worker for Python `str.split()` (no argument): whitespace runs separate
tokens, empty tokens are dropped. -/
def pySplitGo : Str → Str → List Str
  | [], acc => if acc = [] then [] else [acc.reverse]
  | x :: xs, acc =>
    if x.isWhitespace then
      if acc = [] then pySplitGo xs [] else acc.reverse :: pySplitGo xs []
    else pySplitGo xs (x :: acc)

/-- Python `str.split()` with no argument. -/
def pySplit (s : Str) : List Str :=
  pySplitGo s []

/-- Python `str.lstrip()`. -/
def pyLstrip (s : Str) : Str :=
  s.dropWhile Char.isWhitespace

/-- Python `str.lower()` (ASCII, which is all the engines compare). -/
def lowerStr (s : Str) : Str :=
  s.map Char.toLower

/-- Does `pat` occur at the head of `s`? -/
def leadMatch : Str → Str → Bool
  | [], _ => true
  | _ :: _, [] => false
  | p :: ps, x :: xs => p = x && leadMatch ps xs

/-- Python substring test `pat in s`. -/
def containsSub (s pat : Str) : Bool :=
  match s with
  | [] => pat = []
  | _ :: xs => leadMatch pat s || containsSub xs pat

/-- Forwarding-table record for one MAC: the values the engines keep per
dictionary key (Python field names `vlan`, `type`, `port`; `type` is renamed
`ptype` here). -/
structure MacEntry where
  vlan : Str
  ptype : Str
  port : Str
deriving DecidableEq, Repr

/-- Python dict from MAC key to entry, embedded as an association list with
insert-overwrites semantics. -/
abbrev MacDict := List (Str × MacEntry)

/-- Python dict assignment `d[k] = v`: overwrite if the key exists, else append. -/
def dictInsert (d : MacDict) (k : Str) (v : MacEntry) : MacDict :=
  if d.any (fun p => p.1 = k) then
    d.map (fun p => if p.1 = k then (k, v) else p)
  else
    d ++ [(k, v)]

/-- Python dict lookup (`d[k]` / `k in d.keys()`), as an `Option`. -/
def dictGet (d : MacDict) (k : Str) : Option MacEntry :=
  (d.find? (fun p => p.1 = k)).map Prod.snd

/-- Python exceptions the engines can raise, plus the connect-time transport
failures (`netmiko`/`paramiko`/`netdev` exception classes). -/
inductive ConnErr
  | unreachable
  | timeout
  | authFailed
deriving DecidableEq, Repr

/-- Exceptions observable in a run: `ValueError` (tuple-unpack of `str.split()`),
`IndexError` (subscript on a too-short split), `AttributeError`
(`None.lower()`), or a connect-time transport failure. -/
inductive PyErr
  | valueError
  | indexError
  | attributeError
  | connFail (e : ConnErr)
deriving DecidableEq, Repr

/-- Observable events of a run: one constructor per `print` the engines make
about a probe, tagged with the switch address. -/
inductive Ev
  | connected (addr : Str)
  | connectFailed (addr : Str) (e : ConnErr)
  | notFound (addr : Str) (mac : Str)
  | found (addr : Str) (mac : Str) (port : Str)
  | accessMatch (addr : Str) (mac : Str) (port : Str)
  | nonAccessIgnored (addr : Str) (mac : Str) (port : Str)
deriving DecidableEq, Repr

/-- One switch, embedded as its address, its connect-time behaviour, and the
text it returns to each command the two engines issue:
`filteredTable m` answers `show mac address-table | incl m` (concurrent engine),
`fullTable` answers the unfiltered table command (sequential engine),
`swportFiltered p` answers `show interface p switchport | incl Operational Mode`,
`swportFull p` answers the unfiltered switchport command. -/
structure Device where
  addr : Str
  connect : Option ConnErr
  filteredTable : Str → Str
  fullTable : Str
  swportFiltered : Str → Str
  swportFull : Str → Str

/-- Python regex class `\w` (ASCII): letters, digits, underscore. -/
def isWordChar (c : Char) : Bool :=
  c.isAlphanum || c = '_'

/-- Split a run of characters satisfying `p` off the front. -/
def takeRun (p : Char → Bool) (cs : Str) : Str × Str :=
  (cs.takeWhile p, cs.dropWhile p)

/-- Match, at the current position, the part of VFEngine's forwarding-table
regex that follows the vlan digits:
`\s+(?P<macaddr>\w{4}.\w{4}.\w{4})\s+(?P<type>(\w+))\s+(?P<port>(\S+))`.
Each `\s+`/`\w+`/`\S+` run is forced to be maximal because the adjacent
character classes are disjoint, so no backtracking is needed here; the
`.` of the pattern matches any character except a newline. -/
def matchAfterVlan (cs : Str) : Option (Str × Str × Str) :=
  let (ws1, cs1) := takeRun Char.isWhitespace cs
  if ws1 = [] then none else
  match cs1 with
  | a1 :: a2 :: a3 :: a4 :: d1 :: b1 :: b2 :: b3 :: b4 :: d2 :: c1 :: c2 :: c3 :: c4 :: rest =>
    if ([a1, a2, a3, a4, b1, b2, b3, b4, c1, c2, c3, c4].all isWordChar)
        && d1 ≠ '\n' && d2 ≠ '\n' then
      let mac := [a1, a2, a3, a4, d1, b1, b2, b3, b4, d2, c1, c2, c3, c4]
      let (ws2, r1) := takeRun Char.isWhitespace rest
      if ws2 = [] then none else
      let (ty, r2) := takeRun isWordChar r1
      if ty = [] then none else
      let (ws3, r3) := takeRun Char.isWhitespace r2
      if ws3 = [] then none else
      let (pt, _) := takeRun (fun c => !c.isWhitespace) r3
      if pt = [] then none else
      some (mac, ty, pt)
    else none
  | _ => none

/-- Try VFEngine's regex
`(?P<vlan>\d{1,4})\s+(?P<macaddr>\w{4}.\w{4}.\w{4})\s+(?P<type>(\w+))\s+(?P<port>(\S+))`
anchored at the current position.  `\d{1,4}` is greedy with backtracking, but a
shorter digit prefix leaves a digit (never whitespace) as the next character,
so a match at this position exists iff the whole digit run has length 1..4 and
the rest of the pattern matches after it. -/
def regexMatchAt (cs : Str) : Option (Str × MacEntry) :=
  let (ds, rest) := takeRun Char.isDigit cs
  if ds = [] || 4 < ds.length then none
  else
    match matchAfterVlan rest with
    | some (mac, ty, pt) => some (mac, ⟨ds, ty, pt⟩)
    | none => none

/-- Python `re.search` for VFEngine's regex on one line: try each position left
to right, return the leftmost match's named groups. -/
def regexSearch : Str → Option (Str × MacEntry)
  | [] => none
  | c :: cs =>
    match regexMatchAt (c :: cs) with
    | some r => some r
    | none => regexSearch cs

namespace VF

/-- Literal searched for by `VFEngine.get_switchport_operational_mode`. -/
def opModeLabel : Str := ("Operational Mode:").data

/-- One iteration of `VFEngine.create_mac_address_dictionary`'s line loop:
`re.search` the line; on a match, assign `mac_dictionary[macaddr] = {...}`. -/
def vfStep (d : MacDict) (line : Str) : MacDict :=
  match regexSearch line with
  | some (m, e) => dictInsert d m e
  | none => d

/-- `VFEngine.create_mac_address_dictionary`, with the device's response text
(`connection.send_config_set(...)` output) passed in as `result`. -/
def create_mac_address_dictionary (result : Str) : MacDict :=
  (splitOnChar '\n' result).foldl vfStep []

/-- Second element of `line.split(":")`; the engine only subscripts it on lines
that contain a colon, so the `[]` default is unreachable there. -/
def colonField1 (l : Str) : Str :=
  match splitOnChar ':' l with
  | _ :: v :: _ => v
  | _ => []

/-- Line loop of `VFEngine.get_switchport_operational_mode`. -/
def vfGetGo : List Str → Option Str
  | [] => none
  | l :: ls =>
    if containsSub l opModeLabel then some (pyLstrip (colonField1 l))
    else vfGetGo ls

/-- `VFEngine.get_switchport_operational_mode`, with the device's response text
passed in as `result`: return `line.split(":")[1].lstrip()` for the first line
containing `'Operational Mode:'`, else fall through to `None`. -/
def get_switchport_operational_mode (result : Str) : Option Str :=
  vfGetGo (splitOnChar '\n' result)

end VF

namespace AsyncVF

/-- `AsyncVFEngine.create_mac_address_dictionary`, with the device's response to
`show mac address-table | incl mac` passed in as `result`.  Python unpacks
`vlan, mac, porttype, port = result.split()`, raising `ValueError` unless the
split yields exactly four tokens; note the local `mac` is rebound to the parsed
token, which becomes the returned dictionary's key. -/
def create_mac_address_dictionary (result : Str) (mac : Str) :
    Except PyErr (Option (Str × MacEntry)) :=
  if result ≠ [] then
    match pySplit result with
    | [vlan, m, porttype, port] => .ok (some (m, ⟨vlan, porttype, port⟩))
    | _ => .error .valueError
  else
    .ok none

/-- `AsyncVFEngine.get_switchport_operational_mode`, with the device's response
to `show interface .. switchport | incl Operational Mode` passed in as
`result`: returns `result.split(":")[1]` (raising `IndexError` when the
nonempty result has no colon), or `None` on empty output. -/
def get_switchport_operational_mode (result : Str) : Except PyErr (Option Str) :=
  if result ≠ [] then
    match splitOnChar ':' result with
    | _ :: v :: _ => .ok (some v)
    | _ => .error .indexError
  else
    .ok none

/-- Literal of the `'access' in result.lower()` check. -/
def accessLit : Str := ("access").data

/-- Body of `AsyncVFEngine.find_mac_address_on_switch`'s loop for one MAC:
returns the events printed for this MAC and the exception, if one is raised. -/
def probeMac (dev : Device) (mac : Str) : List Ev × Option PyErr :=
  match create_mac_address_dictionary (dev.filteredTable mac) mac with
  | .error e => ([], some e)
  | .ok none => ([.notFound dev.addr mac], none)
  | .ok (some (key, entry)) =>
    if mac = key then
      match get_switchport_operational_mode (dev.swportFiltered entry.port) with
      | .error e => ([.found dev.addr mac entry.port], some e)
      | .ok none => ([.found dev.addr mac entry.port], some .attributeError)
      | .ok (some mode) =>
        if containsSub (lowerStr mode) accessLit then
          ([.found dev.addr mac entry.port, .accessMatch dev.addr mac entry.port], none)
        else
          ([.found dev.addr mac entry.port, .nonAccessIgnored dev.addr mac entry.port], none)
    else
      ([], none)

/-- The `for mac in maclist` loop of `find_mac_address_on_switch`: an exception
raised for one MAC aborts the remaining MACs of this switch. -/
def probeLoop (dev : Device) : List Str → List Ev × Option PyErr
  | [] => ([], none)
  | m :: rest =>
    match probeMac dev m with
    | (evs, some e) => (evs, some e)
    | (evs, none) =>
      let (evs2, err2) := probeLoop dev rest
      (evs ++ evs2, err2)

/-- `AsyncVFEngine.find_mac_address_on_switch`: open one session for the switch
(a connect failure raises out of the task before any event), print the
connected message, then look up every MAC over the same session. -/
def find_mac_address_on_switch (dev : Device) (maclist : List Str) :
    List Ev × Option PyErr :=
  match dev.connect with
  | some e => ([], some (.connFail e))
  | none =>
    let (evs, err) := probeLoop dev maclist
    (Ev.connected dev.addr :: evs, err)

/-- `asyncio.gather(*tasks)` with the default `return_exceptions=False`: if
every task returns, the list of their return values (each task of this engine
returns `None`, hence `Unit`); if any task raises, the awaiter gets an
exception instead of a result list.  Python propagates the temporally first
exception; which one is propagated is immaterial to the properties proved
below, and this embedding determinizes to the first failed task in list
order. -/
def gather (rs : List (List Ev × Option PyErr)) : Except PyErr (List Unit) :=
  match rs with
  | [] => .ok []
  | (_, some e) :: _ => .error e
  | (_, none) :: tl =>
    match gather tl with
    | .error e => .error e
    | .ok l => .ok (() :: l)

/-- `AsyncVFEngine.main`: one task per switch over the shared MAC list, results
gathered.  Returns each task's event trace (what it prints when run to
completion) alongside the gathered value `main` awaits. -/
def main (devs : List Device) (maclist : List Str) :
    List (List Ev) × Except PyErr (List Unit) :=
  let rs := devs.map (fun d => find_mac_address_on_switch d maclist)
  (rs.map Prod.fst, gather rs)

end AsyncVF

namespace VF

/-- Literal the sequential engine compares to: `result == 'static access'`. -/
def staticAccessLit : Str := ("static access").data

/-- Body of `VFEngine.main`'s inner (per-switch) loop for one (MAC, switch)
pair: `try: ConnectHandler(...) except ...` then table lookup, membership
test, operational-mode check, and break on a static-access match.  Returns
(events printed, whether the `break` fires, exception raised if any); a
connect failure prints its message and the loop continues. -/
def probeHost (host : Device) (mac : Str) : List Ev × Bool × Option PyErr :=
  match host.connect with
  | some e => ([.connectFailed host.addr e], false, none)
  | none =>
    let d := create_mac_address_dictionary host.fullTable
    match dictGet d mac with
    | none => ([.connected host.addr], false, none)
    | some entry =>
      match get_switchport_operational_mode (host.swportFull entry.port) with
      | none =>
        -- `get_switchport_operational_mode(...).lower()` on a `None` return
        ([.connected host.addr, .found host.addr mac entry.port], false,
          some .attributeError)
      | some s =>
        if lowerStr s = staticAccessLit then
          ([.connected host.addr, .found host.addr mac entry.port,
            .accessMatch host.addr mac entry.port], true, none)
        else
          ([.connected host.addr, .found host.addr mac entry.port,
            .nonAccessIgnored host.addr mac entry.port], false, none)

/-- Inner `for host in hosts_root["host_list"]` loop of `VFEngine.main` for one
MAC: probe hosts in order, stopping early when a probe breaks; an exception
aborts the whole program. -/
def searchOne : List Device → Str → List Ev × Option PyErr
  | [], _ => ([], none)
  | h :: rest, mac =>
    match probeHost h mac with
    | (evs, _, some e) => (evs, some e)
    | (evs, true, none) => (evs, none)
    | (evs, false, none) =>
      let (evs2, err2) := searchOne rest mac
      (evs ++ evs2, err2)

/-- `VFEngine.main`: outer loop over the target MACs, inner loop over the
switches, a fresh connection per (MAC, switch) pair. -/
def main (hosts : List Device) : List Str → List Ev × Option PyErr
  | [] => ([], none)
  | m :: rest =>
    match searchOne hosts m with
    | (evs, some e) => (evs, some e)
    | (evs, none) =>
      let (evs2, err2) := main hosts rest
      (evs ++ evs2, err2)

end VF

/-- Is this event the sequential/concurrent "logged in successfully" print? -/
def isConnectedEv : Ev → Bool
  | .connected _ => true
  | _ => false

/-- Number of sessions successfully opened in a trace. -/
def countConnected (evs : List Ev) : Nat :=
  evs.countP isConnectedEv

/-- Is this event a per-pair classification outcome (access / non-access)? -/
def isClassificationEv : Ev → Bool
  | .accessMatch _ _ _ => true
  | .nonAccessIgnored _ _ _ => true
  | _ => false

/-! Concrete fixtures: a target MAC, forwarding-table lines, and devices. -/

/-- A full (normalized, dot-separated) target MAC. -/
def macQ : Str := ("aabb.ccdd.eeff").data

/-- A second target MAC, absent from every fixture table. -/
def macQ2 : Str := ("1111.2222.3333").data

/-- A partial MAC query, a strict prefix of `macQ` (a device-side `| incl`
filter matches it against lines holding `macQ`). -/
def macFuzzyQ : Str := ("aabb.ccdd").data

/-- One forwarding-table line for `macQ` on port Gi1/0/1. -/
def tableLine : Str := ("10   aabb.ccdd.eeff   DYNAMIC   Gi1/0/1").data

/-- A second forwarding-table line for the same MAC on a different port. -/
def tableLine2 : Str := ("20   aabb.ccdd.eeff   STATIC    Gi1/0/2").data

def portG1 : Str := ("Gi1/0/1").data

def addrA : Str := ("10.0.0.1").data

def addrB : Str := ("10.0.0.2").data

/-- Entry parsed from `tableLine`. -/
def entry1 : MacEntry := ⟨("10").data, ("DYNAMIC").data, portG1⟩

/-- Entry parsed from `tableLine2`. -/
def entry2 : MacEntry := ⟨("20").data, ("STATIC").data, ("Gi1/0/2").data⟩

/-- Switchport-status response with a static-access operational mode. -/
def opModeStaticLine : Str := ("Operational Mode: static access").data

def staticAccessStr : Str := ("static access").data

/-- A reachable switch holding `macQ` on static-access port Gi1/0/1. -/
def devAccessA : Device :=
  { addr := addrA
    connect := none
    filteredTable := fun m => if m = macQ then tableLine else []
    fullTable := tableLine
    swportFiltered := fun p => if p = portG1 then opModeStaticLine else []
    swportFull := fun p => if p = portG1 then opModeStaticLine else [] }

/-- Same switch as `devAccessA` at a second address. -/
def devAccessB : Device :=
  { devAccessA with addr := addrB }

/-- A reachable switch with an empty forwarding table. -/
def devEmpty : Device :=
  { addr := addrB
    connect := none
    filteredTable := fun _ => []
    fullTable := []
    swportFiltered := fun _ => []
    swportFull := fun _ => [] }

/-- A switch whose connection attempt fails. -/
def devUnreachable : Device :=
  { devEmpty with addr := ("10.0.0.9").data, connect := some .unreachable }

/-- A switch whose device-side filter answers the partial query `macFuzzyQ`
with the `macQ` line (substring match). -/
def devFuzzy : Device :=
  { devEmpty with
    addr := addrA
    filteredTable := fun m => if m = macFuzzyQ then tableLine else [] }

/-- A switch holding `macQ` on a port whose operational mode is
`dynamic access`. -/
def devDynAccess : Device :=
  { devAccessA with
    swportFiltered := fun p =>
      if p = portG1 then ("Operational Mode: dynamic access").data else []
    swportFull := fun p =>
      if p = portG1 then ("Operational Mode: dynamic access").data else [] }

/-- A switch holding `macQ` whose switchport-status command returns no
output. -/
def devNoMode : Device :=
  { devAccessA with
    swportFiltered := fun _ => []
    swportFull := fun _ => [] }

/-- Claim C1 (code bug): at the failing input — one reachable switch whose
filtered table answers the partial query `macFuzzyQ` with a line for the
longer MAC `macQ` — the completed run returns only the tasks' `None` values
(`.ok [()]`, carrying no per-pair records at all), and the run's sole
observable event is the connected message: the (switch, MAC) pair produced
neither a result record nor even a printed outcome, so N×M result coverage
fails. -/
theorem asyncMain_returns_no_match_results :
    (AsyncVF.main [devFuzzy] [macFuzzyQ]).2 = .ok [()]
    ∧ (AsyncVF.main [devFuzzy] [macFuzzyQ]).1 = [[Ev.connected addrA]] := by
  constructor
  · rfl
  · rfl

/-- Claim C2 (code bug): with switch A unreachable and switch B reachable,
`asyncio.gather` (default `return_exceptions=False`) propagates A's connect
exception, so the run yields an error and B's results are never collected —
while the same run with B alone completes.  One switch's connect failure does
abort the fleet-wide collection. -/
theorem asyncMain_aborts_on_single_connect_failure :
    (AsyncVF.main [devUnreachable, devEmpty] [macQ]).2
      = .error (.connFail .unreachable)
    ∧ (AsyncVF.main [devEmpty] [macQ]).2 = .ok [()] := by
  exact ⟨rfl, rfl⟩

/-- Claim C3 counterexample: the concurrent variant's forwarding-table parser
raises `ValueError` on the one-token text `hello` (it is not treated as
non-data), and the sequential variant's regex parser extracts an entry from a
line that is not exactly four whitespace-separated tokens. -/
theorem forwarding_parser_not_total_counterexample :
    AsyncVF.create_mac_address_dictionary (("hello").data) macQ
      = .error .valueError
    ∧ dictGet
        (VF.create_mac_address_dictionary
          (("junk 10 aabb.ccdd.eeff DYNAMIC Gi1/0/1 extra").data)) macQ
      = some entry1 := by
  constructor
  · rfl
  · rfl

/-- Claim C4 counterexample: on a table whose first line maps `macQ` to
Gi1/0/1 and whose second line maps it to Gi1/0/2, the sequential parser
returns the second line's entry — the later matching line overwrites the
earlier, so the earliest matching line is not authoritative. -/
theorem vf_parser_last_line_wins_counterexample :
    regexSearch tableLine = some (macQ, entry1)
    ∧ dictGet
        (VF.create_mac_address_dictionary (tableLine ++ '\n' :: tableLine2))
        macQ = some entry2
    ∧ entry2 ≠ entry1 := by
  refine ⟨rfl, rfl, ?_⟩
  decide

/-- Claim C5 counterexample: on the exact text `Operational Mode: static
access` the concurrent variant's mode parser returns the value with its
leading space intact (no `lstrip`), not the trimmed `static access` the claim
promises of the mode parser. -/
theorem async_mode_parser_no_trim_counterexample :
    AsyncVF.get_switchport_operational_mode opModeStaticLine
      = .ok (some (' ' :: staticAccessStr))
    ∧ (' ' :: staticAccessStr) ≠ staticAccessStr := by
  constructor
  · rfl
  · decide

/-! General lemmas about the embedded parsers and probers. -/

/-- Lines on which the regex finds nothing leave the dictionary untouched. -/
theorem foldl_vfStep_of_noMatch (ls : List Str) (d : MacDict)
    (h : ∀ l ∈ ls, regexSearch l = none) : ls.foldl VF.vfStep d = d := by
  induction ls generalizing d with
  | nil => rfl
  | cons l ls ih =>
    rw [List.foldl_cons, show VF.vfStep d l = d by
      simp [VF.vfStep, h l (List.mem_cons_self l ls)]]
    exact ih d fun x hx => h x (List.mem_cons_of_mem l hx)

/-- Claim C3, amended: the regex-based parser (sequential variant) is total
and yields no entry exactly when no line has a regex match — but the filtered
variant (concurrent engine) is not total: it raises `ValueError` precisely on
nonempty response text that does not split into exactly four
whitespace-separated tokens, instead of treating it as non-data. -/
theorem forwarding_parsers_totality_amended :
    (∀ res mac,
        AsyncVF.create_mac_address_dictionary res mac = .error .valueError
          ↔ res ≠ [] ∧ (pySplit res).length ≠ 4)
    ∧ (∀ res, (∀ l ∈ splitOnChar '\n' res, regexSearch l = none) →
        VF.create_mac_address_dictionary res = []) := by
  constructor
  · intro res mac
    unfold AsyncVF.create_mac_address_dictionary
    by_cases hres : res = []
    · subst hres
      simp
    · rw [if_pos hres]
      rcases hp : pySplit res with _ | ⟨a, _ | ⟨b, _ | ⟨c, _ | ⟨d, _ | ⟨e, tl⟩⟩⟩⟩⟩ <;>
        simp [hp, hres]
  · intro res h
    unfold VF.create_mac_address_dictionary
    exact foldl_vfStep_of_noMatch _ _ h

/-- Witness for the amended C3 theorem at concrete inputs: a three-token
response makes the concurrent parser raise, and a matchless text parses to the
empty dictionary. -/
theorem forwarding_parsers_totality_amended_witness :
    AsyncVF.create_mac_address_dictionary (("hi there you").data) macQ2
      = .error .valueError
    ∧ VF.create_mac_address_dictionary (("no table here").data) = [] := by
  constructor
  · exact (forwarding_parsers_totality_amended.1 (("hi there you").data)
      macQ2).mpr (by constructor <;> decide)
  · exact forwarding_parsers_totality_amended.2 (("no table here").data)
      (by decide)

/-- The line scan of the sequential mode parser is `List.find?` on the label
plus the colon-field extraction. -/
theorem vfGetGo_eq_find? (ls : List Str) :
    VF.vfGetGo ls
      = ((ls.find? fun l => containsSub l VF.opModeLabel).map
          fun l => pyLstrip (VF.colonField1 l)) := by
  induction ls with
  | nil => rfl
  | cons l ls ih =>
    rw [VF.vfGetGo, List.find?_cons]
    by_cases h : containsSub l VF.opModeLabel = true
    · simp [h]
    · simp only [Bool.not_eq_true] at h
      simp [h, ih]

/-- Claim C5, amended: the sequential variant's mode parser returns, for the
first line containing the literal `Operational Mode:`, the text between the
first and second colon of that line with leading whitespace trimmed — on the
spec's example line it yields `static access` — while the concurrent variant
returns the text after the first colon of the whole filtered response without
trimming leading whitespace. -/
theorem mode_parser_amended :
    (∀ res, VF.get_switchport_operational_mode res
        = (((splitOnChar '\n' res).find? fun l => containsSub l VF.opModeLabel).map
            fun l => pyLstrip (VF.colonField1 l)))
    ∧ VF.get_switchport_operational_mode opModeStaticLine = some staticAccessStr
    ∧ AsyncVF.get_switchport_operational_mode opModeStaticLine
        = .ok (some (' ' :: staticAccessStr)) := by
  refine ⟨fun res => ?_, rfl, rfl⟩
  unfold VF.get_switchport_operational_mode
  exact vfGetGo_eq_find? _

/-- Overwriting every entry holding key `k'` leaves `find?` for another key
untouched, and makes `find?` for `k'` return the new value exactly when some
entry held `k'`. -/
theorem find?_replaceKey (d : MacDict) (k k' : Str) (v : MacEntry) :
    ((d.map fun p => if p.1 = k' then (k', v) else p).find?
        fun p => decide (p.1 = k))
      = if k = k' then
          (if d.any (fun p => decide (p.1 = k')) then some (k', v) else none)
        else d.find? fun p => decide (p.1 = k) := by
  induction d with
  | nil => by_cases h : k = k' <;> simp [h]
  | cons p d ih =>
    rw [List.map_cons]
    by_cases h1 : p.1 = k'
    · rw [if_pos h1]
      by_cases h2 : k = k'
      · subst h2
        rw [List.find?_cons_of_pos _ (by simp), if_pos rfl, List.any_cons,
          if_pos (by simp [h1])]
      · have hpk : ¬ p.1 = k := fun h => h2 (h1.symm.trans h).symm
        rw [List.find?_cons_of_neg _ (by simpa using fun h => h2 h.symm), ih,
          if_neg h2, if_neg h2, List.find?_cons_of_neg _ (by simpa using hpk)]
    · rw [if_neg h1]
      by_cases h2 : k = k'
      · subst h2
        have hpk : ¬ p.1 = k := fun h => h1 h
        rw [List.find?_cons_of_neg _ (by simpa using hpk), ih, if_pos rfl,
          if_pos rfl, List.any_cons]
        simp only [show (decide (p.1 = k) : Bool) = false from by simpa using hpk,
          Bool.false_or]
      · by_cases h3 : p.1 = k
        · rw [List.find?_cons_of_pos _ (by simpa using h3), if_neg h2,
            List.find?_cons_of_pos _ (by simpa using h3)]
        · rw [List.find?_cons_of_neg _ (by simpa using h3), ih, if_neg h2,
            if_neg h2, List.find?_cons_of_neg _ (by simpa using h3)]

/-- Python dict lookup after dict assignment: the assigned key now maps to the
new value, every other key is unchanged. -/
theorem dictGet_insert (d : MacDict) (k' k : Str) (v : MacEntry) :
    dictGet (dictInsert d k' v) k = if k = k' then some v else dictGet d k := by
  unfold dictGet dictInsert
  by_cases hany : (d.any fun p => decide (p.1 = k')) = true
  · rw [if_pos hany, find?_replaceKey]
    by_cases h2 : k = k'
    · simp [h2, hany]
    · simp [h2]
  · rw [if_neg hany, List.find?_append]
    by_cases h2 : k = k'
    · subst h2
      have hnone : (d.find? fun p => decide (p.1 = k)) = none := by
        rw [List.find?_eq_none]
        intro x hx
        simp only [decide_eq_true_eq]
        intro hk
        exact hany (List.any_eq_true.mpr ⟨x, hx, by simp [hk]⟩)
      rw [hnone, List.find?_cons_of_pos _ (by simp)]
      simp
    · have hk'k : ¬ k' = k := fun h => h2 h.symm
      rw [List.find?_cons_of_neg _ (by simpa using hk'k), if_neg h2]
      simp

/-- Running the sequential parser's line loop, the dictionary value of a key
is the entry of the last matching line for that key, falling back to the
starting dictionary. -/
theorem dictGet_foldl_vfStep (ls : List Str) (d : MacDict) (k : Str) :
    dictGet (ls.foldl VF.vfStep d) k
      = (((ls.filterMap regexSearch).reverse.find?
            fun p => decide (p.1 = k)).map Prod.snd).or (dictGet d k) := by
  induction ls generalizing d with
  | nil => simp
  | cons l ls ih =>
    rw [List.foldl_cons, ih]
    rcases h : regexSearch l with _ | ⟨m, e⟩
    · rw [show VF.vfStep d l = d by simp [VF.vfStep, h],
        List.filterMap_cons_none h]
    · rw [show VF.vfStep d l = dictInsert d m e by simp [VF.vfStep, h],
        List.filterMap_cons_some h, dictGet_insert]
      rw [show ((m, e) :: ls.filterMap regexSearch).reverse
            = (ls.filterMap regexSearch).reverse ++ [(m, e)] by simp,
        List.find?_append]
      rcases hf : ((ls.filterMap regexSearch).reverse.find?
          fun p => decide (p.1 = k)) with _ | p
      · rw [hf]
        by_cases hk : k = m
        · subst hk
          rw [if_pos rfl, List.find?_cons_of_pos _ (by simp)]
          simp
        · have hmk : ¬ m = k := fun h => hk h.symm
          rw [if_neg hk, List.find?_cons_of_neg _ (by simpa using hmk)]
          simp
      · rw [hf]
        simp

/-- Claim C4, amended: when multiple lines of the forwarding-table output
match, the sequential parser's entry for a MAC comes from the **latest**
matching line for that MAC (later lines overwrite earlier ones), not the
earliest; and the concurrent (filtered) variant raises `ValueError` on any
response of five or more tokens, such as two matching lines, rather than
selecting one of them. -/
theorem forwarding_last_match_amended :
    (∀ res k, dictGet (VF.create_mac_address_dictionary res) k
        = (((splitOnChar '\n' res).filterMap regexSearch).reverse.find?
            fun p => decide (p.1 = k)).map Prod.snd)
    ∧ (∀ res mac, 5 ≤ (pySplit res).length →
        AsyncVF.create_mac_address_dictionary res mac = .error .valueError) := by
  constructor
  · intro res k
    unfold VF.create_mac_address_dictionary
    rw [dictGet_foldl_vfStep]
    simp [dictGet]
  · intro res mac h
    have hres : res ≠ [] := by
      intro he
      rw [he] at h
      simp [pySplit, pySplitGo] at h
    unfold AsyncVF.create_mac_address_dictionary
    rw [if_pos hres]
    rcases hp : pySplit res with _ | ⟨a, _ | ⟨b, _ | ⟨c, _ | ⟨d, _ | ⟨e, tl⟩⟩⟩⟩⟩ <;>
      rw [hp] at h <;> simp at h ⊢

/-- Witness for the amended C4 theorem: the two-line table fixture satisfies
the last-match characterization, and a five-token response makes the
concurrent parser raise. -/
theorem forwarding_last_match_amended_witness :
    dictGet (VF.create_mac_address_dictionary (tableLine ++ '\n' :: tableLine2))
        macQ
      = ((((splitOnChar '\n' (tableLine ++ '\n' :: tableLine2)).filterMap
            regexSearch).reverse.find? fun p => decide (p.1 = macQ)).map Prod.snd)
    ∧ AsyncVF.create_mac_address_dictionary (("a b c d e").data) macQ
        = .error .valueError := by
  exact ⟨forwarding_last_match_amended.1 _ _,
    forwarding_last_match_amended.2 _ _ (by decide)⟩

/-- Claim C6 counterexample: on a switch whose port reports operational mode
`dynamic access`, the sequential engine finds the forwarding entry, the mode
text contains `access` under the case-insensitive containment check, and yet
the pair is classified as non-access and ignored — refuting the claimed
iff between access classification and the containment check. -/
theorem vf_access_by_equality_counterexample :
    containsSub (lowerStr (("dynamic access").data)) AsyncVF.accessLit = true
    ∧ (VF.probeHost devDynAccess macQ).1
        = [.connected addrA, .found addrA macQ portG1,
           .nonAccessIgnored addrA macQ portG1] := by
  exact ⟨rfl, rfl⟩

/-- Claim C6, amended: when a forwarding entry is found for the query and a
mode string is parsed, the concurrent engine classifies the pair as an access
match iff the lowered mode text contains `access` — but the sequential engine
classifies it as an access match iff the lowered parsed mode equals
`static access` exactly, so modes such as `dynamic access` are ignored by the
sequential engine despite containing `access`. -/
theorem access_classification_amended :
    (∀ dev mac e s,
        AsyncVF.create_mac_address_dictionary (dev.filteredTable mac) mac
            = .ok (some (mac, e)) →
        AsyncVF.get_switchport_operational_mode (dev.swportFiltered e.port)
            = .ok (some s) →
        ((Ev.accessMatch dev.addr mac e.port ∈ (AsyncVF.probeMac dev mac).1)
          ↔ containsSub (lowerStr s) AsyncVF.accessLit = true))
    ∧ (∀ host mac e s, host.connect = none →
        dictGet (VF.create_mac_address_dictionary host.fullTable) mac = some e →
        VF.get_switchport_operational_mode (host.swportFull e.port) = some s →
        ((Ev.accessMatch host.addr mac e.port ∈ (VF.probeHost host mac).1)
          ↔ lowerStr s = VF.staticAccessLit)) := by
  constructor
  · intro dev mac e s hp hm
    unfold AsyncVF.probeMac
    rw [hp]
    dsimp only
    rw [if_pos rfl, hm]
    dsimp only
    by_cases hc : containsSub (lowerStr s) AsyncVF.accessLit = true
    · simp [hc]
    · simp only [Bool.not_eq_true] at hc
      simp [hc]
  · intro host mac e s hcn hd hm
    unfold VF.probeHost
    rw [hcn]
    dsimp only
    rw [hd]
    dsimp only
    rw [hm]
    dsimp only
    by_cases hs : lowerStr s = VF.staticAccessLit
    · simp [hs]
    · simp [hs]

/-- Witness for the amended C6 theorem: on the static-access fixture device
both engines classify the (switch, MAC) pair as an access match. -/
theorem access_classification_amended_witness :
    Ev.accessMatch devAccessA.addr macQ entry1.port
        ∈ (AsyncVF.probeMac devAccessA macQ).1
    ∧ Ev.accessMatch devAccessA.addr macQ entry1.port
        ∈ (VF.probeHost devAccessA macQ).1 := by
  constructor
  · exact (access_classification_amended.1 devAccessA macQ entry1
      (' ' :: staticAccessStr) rfl rfl).mpr (by decide)
  · exact (access_classification_amended.2 devAccessA macQ entry1
      staticAccessStr rfl rfl rfl).mpr (by decide)

/-- Claim C7, amended: the concurrent parser itself may return an entry keyed
by a MAC other than the query (the device-side filter is a substring match),
but the prober's membership check lets a probe proceed to a found entry only
when the parsed dictionary key equals the queried MAC — so every found/
classified pair stems from an entry whose MAC equals the query, and fuzzy
entries produce no outcome at all. -/
theorem prober_fuzzy_guard_amended :
    ∀ dev mac a p, Ev.found a mac p ∈ (AsyncVF.probeMac dev mac).1 →
      a = dev.addr
      ∧ ∃ e, AsyncVF.create_mac_address_dictionary (dev.filteredTable mac) mac
            = .ok (some (mac, e)) ∧ e.port = p := by
  intro dev mac a p hmem
  unfold AsyncVF.probeMac at hmem
  rcases hp : AsyncVF.create_mac_address_dictionary (dev.filteredTable mac) mac
    with e0 | o
  · rw [hp] at hmem
    simp at hmem
  · rcases o with _ | ⟨key, entry⟩
    · rw [hp] at hmem
      simp at hmem
    · rw [hp] at hmem
      dsimp only at hmem
      by_cases hk : mac = key
      · subst hk
        rw [if_pos rfl] at hmem
        rcases hm : AsyncVF.get_switchport_operational_mode
            (dev.swportFiltered entry.port) with e1 | o1
        · rw [hm] at hmem
          simp at hmem
          exact ⟨hmem.1, entry, rfl, hmem.2.symm⟩
        · rcases o1 with _ | mode
          · rw [hm] at hmem
            simp at hmem
            exact ⟨hmem.1, entry, rfl, hmem.2.symm⟩
          · rw [hm] at hmem
            dsimp only at hmem
            by_cases hc : containsSub (lowerStr mode) AsyncVF.accessLit = true
            · rw [if_pos hc] at hmem
              simp at hmem
              exact ⟨hmem.1, entry, rfl, hmem.2.symm⟩
            · rw [if_neg hc] at hmem
              simp at hmem
              exact ⟨hmem.1, entry, rfl, hmem.2.symm⟩
      · rw [if_neg hk] at hmem
        simp at hmem

/-- Witness for the amended C7 theorem: on the static-access fixture the found
event does occur, and the theorem recovers the parser equation for it. -/
theorem prober_fuzzy_guard_amended_witness :
    addrA = devAccessA.addr
    ∧ ∃ e, AsyncVF.create_mac_address_dictionary
          (devAccessA.filteredTable macQ) macQ = .ok (some (macQ, e))
        ∧ e.port = portG1 := by
  exact prober_fuzzy_guard_amended devAccessA macQ addrA portG1 (by decide)

/-- The per-MAC body of the concurrent prober never prints a connected
message: the session is opened once outside the MAC loop. -/
theorem probeMac_no_connected (dev : Device) (m : Str) :
    countConnected (AsyncVF.probeMac dev m).1 = 0 := by
  unfold AsyncVF.probeMac
  rcases hp : AsyncVF.create_mac_address_dictionary (dev.filteredTable m) m
    with e0 | o
  · rfl
  · rcases o with _ | ⟨key, entry⟩
    · rfl
    · dsimp only
      by_cases hk : m = key
      · rw [if_pos hk]
        rcases hm : AsyncVF.get_switchport_operational_mode
            (dev.swportFiltered entry.port) with e1 | o1
        · rfl
        · rcases o1 with _ | mode
          · rfl
          · dsimp only
            by_cases hc : containsSub (lowerStr mode) AsyncVF.accessLit = true
            · rw [if_pos hc]
              rfl
            · rw [if_neg hc]
              rfl
      · rw [if_neg hk]
        rfl

/-- The concurrent prober's MAC loop as a whole opens no session. -/
theorem probeLoop_no_connected (dev : Device) (ms : List Str) :
    countConnected (AsyncVF.probeLoop dev ms).1 = 0 := by
  induction ms with
  | nil => rfl
  | cons m ms ih =>
    unfold AsyncVF.probeLoop
    have h1 := probeMac_no_connected dev m
    rcases h : AsyncVF.probeMac dev m with ⟨evs, err⟩
    rw [h] at h1
    dsimp only at h1
    rcases err with _ | e
    · dsimp only
      rcases hl : AsyncVF.probeLoop dev ms with ⟨evs2, err2⟩
      rw [hl] at ih
      dsimp only at ih
      dsimp only
      unfold countConnected at h1 ih ⊢
      rw [List.countP_append, h1, ih]
    · exact h1

/-- Claim C8, amended: the concurrent engine opens exactly one session per
reachable switch and reuses it across all MAC lookups — but the sequential
engine opens its own session inside every (MAC, switch) probe, i.e. one new
session per (switch, MAC) pair attempted. -/
theorem sessions_per_switch_amended :
    (∀ dev maclist, dev.connect = none →
        countConnected (AsyncVF.find_mac_address_on_switch dev maclist).1 = 1)
    ∧ (∀ host mac, host.connect = none →
        countConnected (VF.probeHost host mac).1 = 1) := by
  constructor
  · intro dev maclist hc
    unfold AsyncVF.find_mac_address_on_switch
    rw [hc]
    dsimp only
    rcases hl : AsyncVF.probeLoop dev maclist with ⟨evs, err⟩
    have h1 := probeLoop_no_connected dev maclist
    rw [hl] at h1
    dsimp only at h1
    dsimp only
    unfold countConnected at h1 ⊢
    rw [List.countP_cons, h1]
    rfl
  · intro host mac hc
    unfold VF.probeHost
    rw [hc]
    dsimp only
    rcases hd : dictGet (VF.create_mac_address_dictionary host.fullTable) mac
      with _ | entry
    · rfl
    · dsimp only
      rcases hm : VF.get_switchport_operational_mode
          (host.swportFull entry.port) with _ | s
      · rfl
      · dsimp only
        by_cases hs : lowerStr s = VF.staticAccessLit
        · rw [if_pos hs]
          rfl
        · rw [if_neg hs]
          rfl

/-- Witness for the amended C8 theorem on the empty-table fixture: one session
for a two-MAC concurrent probe, one session per sequential pair probe. -/
theorem sessions_per_switch_amended_witness :
    countConnected (AsyncVF.find_mac_address_on_switch devEmpty [macQ, macQ2]).1 = 1
    ∧ countConnected (VF.probeHost devEmpty macQ).1 = 1 := by
  exact ⟨sessions_per_switch_amended.1 devEmpty [macQ, macQ2] rfl,
    sessions_per_switch_amended.2 devEmpty macQ rfl⟩

/-- Claim C8 counterexample: probing one switch for two MACs with the
sequential engine opens two sessions, not the single reused session the claim
asserts. -/
theorem vf_session_per_pair_counterexample :
    countConnected (VF.main [devEmpty] [macQ, macQ2]).1 = 2 ∧ (2 : Nat) ≠ 1 := by
  exact ⟨rfl, by decide⟩

/-- Claim C9: the sequential engine breaks its switch loop as soon as one
probe yields a static-access match (later switches in the list are not
probed for that MAC), while the concurrent engine probes every switch for
every MAC with no cross-switch early exit: on two switches that both hold the
MAC on an access port, the concurrent run reports the match on both switches,
the sequential run only on the first, producing no events at all for the
second — the two variants are not equivalent on this behavior. -/
theorem break_on_first_match_divergence :
    (∀ h rest mac evs, VF.probeHost h mac = (evs, true, none) →
        VF.searchOne (h :: rest) mac = (evs, none))
    ∧ (AsyncVF.main [devAccessA, devAccessB] [macQ]).1
        = [[.connected addrA, .found addrA macQ portG1,
            .accessMatch addrA macQ portG1],
           [.connected addrB, .found addrB macQ portG1,
            .accessMatch addrB macQ portG1]]
    ∧ (VF.main [devAccessA, devAccessB] [macQ]).1
        = [.connected addrA, .found addrA macQ portG1,
           .accessMatch addrA macQ portG1] := by
  refine ⟨?_, rfl, rfl⟩
  intro h rest mac evs hp
  unfold VF.searchOne
  rw [hp]

/-- Witness for the C9 theorem's break clause: with both access fixtures in
the list, the per-MAC switch loop stops after the first switch. -/
theorem break_on_first_match_divergence_witness :
    VF.searchOne [devAccessA, devAccessB] macQ
      = ([.connected addrA, .found addrA macQ portG1,
          .accessMatch addrA macQ portG1], none) := by
  exact break_on_first_match_divergence.1 devAccessA [devAccessB] macQ
    [.connected addrA, .found addrA macQ portG1,
      .accessMatch addrA macQ portG1] rfl

/-- Claim C10: in the concurrent engine, when the forwarding lookup finds an
entry for the query but the switchport-mode lookup returns no output (the
parser returns `None`), the probe raises `AttributeError` at `result.lower()`
and the (switch, MAC) pair receives no classification event. -/
theorem missing_mode_output_attribute_error :
    ∀ dev mac e,
      AsyncVF.create_mac_address_dictionary (dev.filteredTable mac) mac
          = .ok (some (mac, e)) →
      dev.swportFiltered e.port = [] →
      (AsyncVF.probeMac dev mac).2 = some .attributeError
      ∧ ∀ ev ∈ (AsyncVF.probeMac dev mac).1, isClassificationEv ev = false := by
  intro dev mac e hp hm
  unfold AsyncVF.probeMac
  rw [hp]
  dsimp only
  rw [if_pos rfl, hm]
  rw [show AsyncVF.get_switchport_operational_mode [] = .ok none from rfl]
  dsimp only
  constructor
  · rfl
  · intro ev hev
    simp at hev
    rw [hev]
    rfl

/-- Witness for the C10 theorem: on the fixture whose switchport command
returns nothing, the probe ends in `AttributeError` with no classification. -/
theorem missing_mode_output_attribute_error_witness :
    (AsyncVF.probeMac devNoMode macQ).2 = some .attributeError
    ∧ ∀ ev ∈ (AsyncVF.probeMac devNoMode macQ).1,
        isClassificationEv ev = false := by
  exact missing_mode_output_attribute_error devNoMode macQ entry1 rfl rfl

/-- Claim C7 counterexample: for the partial query `aabb.ccdd` the concurrent
parser returns an entry keyed by the different MAC `aabb.ccdd.eeff` parsed
from the device-side substring match — the parser itself silently accepts an
entry whose MAC differs from the query. -/
theorem async_parser_accepts_fuzzy_mac_counterexample :
    AsyncVF.create_mac_address_dictionary (devFuzzy.filteredTable macFuzzyQ)
        macFuzzyQ = .ok (some (macQ, entry1))
    ∧ macQ ≠ macFuzzyQ := by
  exact ⟨rfl, by decide⟩
